import Mathlib

/-!
# Timesheet server: shallow embedding and verification

This file embeds the timesheet lifecycle, query/filter and export logic of
the Timesheet_Server repository (an Express/Mongoose CRUD backend) in Lean 4
and proves the specification claims about it.

Embedding conventions:
* Mongo ObjectIds are `String`s; the record store is a `List Timesheet`.
* Dates are day-granular and stored as `Int` (days since the Unix epoch);
  `new Date(s)` comparisons (`$gte`/`$lte`) become `Int` comparisons.
* Mongoose `save` validation (required non-empty strings after the `trim`
  setter, the status enum) is `validTimesheet`; a failed validation surfaces
  as the generic 500 error of the route's catch block (`ApiError.serverError`).
* Each mutating operation returns the response (`Except ApiError _`) together
  with the store after the call, so "store unchanged on failure" is explicit.
-/

/-- One timesheet document (model `Timesheet`, src/unnamed/part_001).
`employee` is the owning user's id, `employeeName` the denormalized name.
`reviewedBy`/`reviewedAt` are unset until an admin review. -/
structure Timesheet where
  id : String
  employee : String
  employeeName : String
  date : Int
  plannedWork : String
  actualWork : String
  remarks : String
  status : String
  adminComments : String
  reviewedBy : Option String
  reviewedAt : Option Int
deriving Repr, DecidableEq

/-- Error outcomes of the route handlers, by the spec's taxonomy.
`conflict` and `invalidState` are both sent as HTTP 400 by the source;
`serverError` is the catch-all 500 (also raised by a failed mongoose
validation on save). -/
inductive ApiError where
  | notFound
  | conflict
  | invalidState
  | serverError
deriving Repr, DecidableEq

/-- The mongoose `trim: true` setter: strips leading and trailing whitespace
from the assigned string. (Defined structurally over the character list so
that concrete instances reduce in the kernel.) -/
def strim (s : String) : String :=
  String.mk
    (((s.data.dropWhile Char.isWhitespace).reverse.dropWhile
        Char.isWhitespace).reverse)

/-- The mongoose status enum: `['pending', 'accepted', 'rejected']`. -/
def validStatus (s : String) : Bool :=
  s == "pending" || s == "accepted" || s == "rejected"

/-- Mongoose document validation on `save`: `employeeName`, `plannedWork`,
`actualWork` are `required` strings (empty after trimming fails), and
`status` must be in the enum. (`employee`/`date` are always supplied in the
embedding; `remarks`/`adminComments` default to `""` and are optional.) -/
def validTimesheet (t : Timesheet) : Bool :=
  t.employeeName != "" && t.plannedWork != "" && t.actualWork != "" &&
    validStatus t.status

/-- Every stored document passes schema validation (documents only enter the
store through a successful `save`). -/
def storeWF (store : List Timesheet) : Bool :=
  store.all validTimesheet

/-- `Timesheet.findById(id)` -/
def findById (store : List Timesheet) (id : String) : Option Timesheet :=
  store.find? (fun t => t.id == id)

/-- `Timesheet.findOne({ _id: id, employee: uid })` -/
def findOwned (store : List Timesheet) (id uid : String) : Option Timesheet :=
  store.find? (fun t => t.id == id && t.employee == uid)

/-- The document built by `new Timesheet({...})` in the handler of
`POST /api/timesheets`: the schema defaults fill `status := "pending"`,
`adminComments := ""`, and leave `reviewedBy`/`reviewedAt` unset. -/
def newDoc (uid uname : String) (d : Int) (pw aw rm newId : String) :
    Timesheet :=
  { id := newId, employee := uid, employeeName := uname, date := d,
    plannedWork := strim pw, actualWork := strim aw, remarks := strim rm,
    status := "pending", adminComments := "",
    reviewedBy := none, reviewedAt := none }

/-- `POST /api/timesheets` (src/server/routes/timesheets.js lines 38-67):
pre-checks `findOne({employee, date})` and answers 400 Conflict on a
duplicate; otherwise builds a new document (status defaults to `pending`,
`trim` setters applied) and saves it. -/
def createTimesheet (store : List Timesheet) (uid uname : String) (d : Int)
    (pw aw rm : String) (newId : String) :
    Except ApiError Timesheet × List Timesheet :=
  if store.any (fun t => t.employee == uid && t.date == d) then
    (Except.error ApiError.conflict, store)
  else
    let ts := newDoc uid uname d pw aw rm newId
    if validTimesheet ts then (Except.ok ts, store ++ [ts])
    else (Except.error ApiError.serverError, store)

/-- The document produced by overwriting `plannedWork`/`actualWork`/`remarks`
in an employee update (the three assignments of the PUT handler, with the
schema's `trim` setters). -/
def updatedDoc (t : Timesheet) (pw aw rm : String) : Timesheet :=
  { t with plannedWork := strim pw, actualWork := strim aw, remarks := strim rm }

/-- The document produced by an admin review: `status`, `adminComments`,
`reviewedBy`, `reviewedAt` are set, everything else untouched. -/
def reviewedDoc (t : Timesheet) (reviewerId newStatus comments : String)
    (now : Int) : Timesheet :=
  { t with status := newStatus, adminComments := strim comments,
           reviewedBy := some reviewerId, reviewedAt := some now }

/-- `PUT /api/timesheets/:id` (lines 70-97): 404 when no document matches
`{_id, employee: requester}`; 400 when status is neither `pending` nor
`rejected`; otherwise overwrites `plannedWork`/`actualWork`/`remarks` and
saves. -/
def updateTimesheet (store : List Timesheet) (id uid : String)
    (pw aw rm : String) : Except ApiError Timesheet × List Timesheet :=
  match findOwned store id uid with
  | none => (Except.error ApiError.notFound, store)
  | some t =>
    if t.status != "pending" && t.status != "rejected" then
      (Except.error ApiError.invalidState, store)
    else
      let t' := updatedDoc t pw aw rm
      if validTimesheet t' then
        (Except.ok t', store.map (fun u => if u.id == id then t' else u))
      else (Except.error ApiError.serverError, store)

/-- `DELETE /api/timesheets/:id` (lines 100-121): 404 when no document
matches `{_id, employee: requester}`; 400 when status is not `pending`;
otherwise `findByIdAndDelete`. -/
def deleteTimesheet (store : List Timesheet) (id uid : String) :
    Except ApiError Unit × List Timesheet :=
  match findOwned store id uid with
  | none => (Except.error ApiError.notFound, store)
  | some t =>
    if t.status != "pending" then (Except.error ApiError.invalidState, store)
    else (Except.ok (), store.filter (fun u => u.id != id))

/-- `PUT /api/admin/timesheets/:id/review` (src/unnamed/part_000 lines
145-170): 404 when the id is absent; otherwise sets `status`,
`adminComments`, `reviewedBy`, `reviewedAt` unconditionally (no transition
guard) and saves. A status outside the schema enum makes `save` throw, so
the catch block answers 500. -/
def reviewTimesheet (store : List Timesheet) (id reviewerId : String)
    (newStatus comments : String) (now : Int) :
    Except ApiError Timesheet × List Timesheet :=
  match findById store id with
  | none => (Except.error ApiError.notFound, store)
  | some t =>
    let t' := reviewedDoc t reviewerId newStatus comments now
    if validTimesheet t' then
      (Except.ok t', store.map (fun u => if u.id == id then t' else u))
    else (Except.error ApiError.serverError, store)

/-- Validity of every stored status: each document's `status` lies in the
schema enum. -/
def statusWF (store : List Timesheet) : Bool :=
  store.all (fun t => validStatus t.status)

/-! ### Query/filter engine

The list endpoints build a Mongo query from optional request parameters.
A JS-falsy parameter (absent or the empty string) adds no condition; the
embedding keeps `""` explicit so that JS truthiness tests stay visible. -/

/-- `if (status && status !== 'all') query.status = status` -/
def statusFilter (status : Option String) (t : Timesheet) : Bool :=
  match status with
  | some s => if s != "" && s != "all" then t.status == s else true
  | none => true

/-- `if (startDate && endDate) query.date = {$gte: .., $lte: ..}` —
an inclusive range, applied only when both bounds are supplied. -/
def dateRangeFilter (sd ed : Option Int) (t : Timesheet) : Bool :=
  match sd, ed with
  | some a, some b => decide (a ≤ t.date) && decide (t.date ≤ b)
  | _, _ => true

/-- `if (employee && employee !== 'all') query.employee = employee` (admin
list endpoint). -/
def employeeParamFilter (emp : Option String) (t : Timesheet) : Bool :=
  match emp with
  | some e => if e != "" && e != "all" then t.employee == e else true
  | none => true

/-- Whether `pat` occurs as a contiguous block at the head of `l`. -/
def charsStartWith : List Char → List Char → Bool
  | _, [] => true
  | [], _ :: _ => false
  | c :: cs, p :: ps => c == p && charsStartWith cs ps

/-- Whether `pat` occurs as a contiguous block anywhere in `l`. -/
def charsContain (l pat : List Char) : Bool :=
  match l with
  | [] => pat.isEmpty
  | _ :: rest => charsStartWith l pat || charsContain rest pat

/-- Case-insensitive substring test: the model of a plain-text
`{$regex: needle, $options: 'i'}` match. -/
def containsCI (hay needle : String) : Bool :=
  charsContain (hay.data.map Char.toLower) (needle.data.map Char.toLower)

/-- The `$or` search clause of the admin list endpoint: case-insensitive
match on `employeeName`, `plannedWork` or `actualWork`, applied only when
`search` is truthy. -/
def searchFilter (search : Option String) (t : Timesheet) : Bool :=
  match search with
  | some s =>
    if s != "" then
      containsCI t.employeeName s || containsCI t.plannedWork s ||
        containsCI t.actualWork s
    else true
  | none => true

/-- Stable insertion for descending-date order (`.sort({date: -1})`). -/
def insertByDateDesc (x : Timesheet) : List Timesheet → List Timesheet
  | [] => [x]
  | y :: ys =>
    if decide (y.date < x.date) then x :: y :: ys
    else y :: insertByDateDesc x ys

/-- `.sort({date: -1})`: stable descending sort by `date`. -/
def sortByDateDesc (l : List Timesheet) : List Timesheet :=
  l.foldr insertByDateDesc []

/-- `GET /api/timesheets` (src/server/routes/timesheets.js lines 10-35):
the query always carries `employee: req.user._id` plus the optional
status/date-range conditions. -/
def employeeListFilter (uid : String) (status : Option String)
    (sd ed : Option Int) (t : Timesheet) : Bool :=
  t.employee == uid && statusFilter status t && dateRangeFilter sd ed t

/-- Result set of the employee list endpoint, sorted date-descending. -/
def employeeList (store : List Timesheet) (uid : String)
    (status : Option String) (sd ed : Option Int) : List Timesheet :=
  sortByDateDesc (store.filter (employeeListFilter uid status sd ed))

/-- `GET /api/admin/timesheets` (src/unnamed/part_000 lines 104-142): the
query is built only from the optional employee/status/date-range/search
parameters — no owner restriction. -/
def adminListFilter (emp status : Option String) (sd ed : Option Int)
    (search : Option String) (t : Timesheet) : Bool :=
  employeeParamFilter emp t && statusFilter status t &&
    dateRangeFilter sd ed t && searchFilter search t

/-- Result set of the admin list endpoint, sorted date-descending. -/
def adminList (store : List Timesheet) (emp status : Option String)
    (sd ed : Option Int) (search : Option String) : List Timesheet :=
  sortByDateDesc (store.filter (adminListFilter emp status sd ed search))

/-- `Timesheet.find({ employee: uid })`: the query of the employee-tier
CSV/PDF export handlers (always scoped to the requester), sorted
date-descending. -/
def employeeOwnedDocs (store : List Timesheet) (uid : String) :
    List Timesheet :=
  sortByDateDesc (store.filter (fun t => t.employee == uid))

/-! ### Dates and the export adapter

`Date#toISOString().split('T')[0]` renders a day number as `YYYY-MM-DD`.
The conversion below is the standard days-to-civil-calendar algorithm; `/`
on `Int` is floor division for positive divisors, so no sign adjustments
are needed. -/

/-- Gregorian `(year, month, day)` of a day count since 1970-01-01. -/
def civilFromDays (z0 : Int) : Int × Int × Int :=
  let z := z0 + 719468
  let era := z / 146097
  let doe := z - era * 146097
  let yoe := (doe - doe / 1460 + doe / 36524 - doe / 146096) / 365
  let doy := doe - (365 * yoe + yoe / 4 - yoe / 100)
  let mp := (5 * doy + 2) / 153
  let d := doy - (153 * mp + 2) / 5 + 1
  let m := mp + (if mp < 10 then 3 else -9)
  (yoe + era * 400 + (if m ≤ 2 then 1 else 0), m, d)

/-- Day count since 1970-01-01 of a Gregorian `(year, month, day)`; also
accepts day 0 as "the day before the first of the month" the way
`new Date(y, m, 0)` does. -/
def daysFromCivil (y0 m d : Int) : Int :=
  let y := y0 - (if m ≤ 2 then 1 else 0)
  let era := y / 400
  let yoe := y - era * 400
  let mp := m + (if 2 < m then -3 else 9)
  let doy := (153 * mp + 2) / 5 + d - 1
  let doe := yoe * 365 + yoe / 4 - yoe / 100 + doy
  era * 146097 + doe - 719468

/-- Zero-pad to two digits. -/
def pad2 (n : Int) : String :=
  if n < 10 then "0" ++ toString n else toString n

/-- `toISOString().split('T')[0]`: the `YYYY-MM-DD` date cell. -/
def isoDateString (d : Int) : String :=
  let c := civilFromDays d
  toString c.1 ++ "-" ++ pad2 c.2.1 ++ "-" ++ pad2 c.2.2

/-- The full ISO timestamp a day-granular `Date` stringifies to when a raw
mongoose document is handed to `json2csv`. -/
def isoDateTime (d : Int) : String :=
  isoDateString d ++ "T00:00:00.000Z"

/-- An Employee/User document (`User` model): the fields the timesheet
routes read. -/
structure User where
  id : String
  name : String
  email : String
  employeeId : String
  department : String
  role : String
deriving Repr, DecidableEq

/-- `.populate('employee', ...)`: resolve the owning employee reference. -/
def popEmployee (users : List User) (t : Timesheet) : Option User :=
  users.find? (fun u => u.id == t.employee)

/-- `json2csv` quoting: every cell is wrapped in double quotes, embedded
double quotes are doubled. -/
def csvQuote (s : String) : String :=
  "\"" ++
    String.mk (s.data.foldr
      (fun c acc => if c == '"' then '"' :: '"' :: acc else c :: acc) []) ++
    "\""

/-- Render a row list to the CSV text body (`parser.parse`): quoted cells
joined by commas, rows joined by newlines, first row the header. -/
def csvRender (rows : List (List String)) : String :=
  String.intercalate "\n"
    (rows.map (fun r => String.intercalate "," (r.map csvQuote)))

/-- The 10-column field list of the admin CSV exports (part_000 line 192
and line 472). -/
def adminCsvHeader : List String :=
  ["employeeName", "employeeEmail", "employeeId", "department", "date",
   "plannedWork", "actualWork", "remarks", "status", "adminComments"]

/-- The 7-column field list of the employee-tier CSV export
(src/server/routes/timesheets.js line 128) and of the unreachable second
admin CSV registration (part_000 line 312). -/
def empCsvHeader : List String :=
  ["employeeName", "date", "plannedWork", "actualWork", "remarks", "status",
   "adminComments"]

/-- Row of the first (reachable) admin CSV export (part_000 lines 179-190):
the name cell is always the denormalized `employeeName`; email, employeeId
and department come from the populated employee when present and render as
`""` otherwise. -/
def adminCsvRowAll (users : List User) (t : Timesheet) : List String :=
  [t.employeeName,
   ((popEmployee users t).map (fun u => u.email)).getD "",
   ((popEmployee users t).map (fun u => u.employeeId)).getD "",
   ((popEmployee users t).map (fun u => u.department)).getD "",
   isoDateString t.date,
   t.plannedWork, t.actualWork, t.remarks, t.status, t.adminComments]

/-- `GET /api/admin/timesheets/export/csv`, first registration (part_000
lines 173-205): all timesheets, unfiltered, date descending, 10 columns. -/
def adminCsvExportAll (store : List Timesheet) (users : List User) :
    List (List String) :=
  adminCsvHeader :: (sortByDateDesc store).map (adminCsvRowAll users)

/-- Row of the 7-column exports: raw document fields (the `date` cell is the
full ISO timestamp of the stored `Date`). -/
def empCsvRow (t : Timesheet) : List String :=
  [t.employeeName, isoDateTime t.date, t.plannedWork, t.actualWork,
   t.remarks, t.status, t.adminComments]

/-- `GET /api/timesheets/export/csv` (timesheets.js lines 124-141): the
requester's own documents, date descending, 7 columns. -/
def employeeCsvExport (store : List Timesheet) (uid : String) :
    List (List String) :=
  empCsvHeader :: (employeeOwnedDocs store uid).map empCsvRow

/-- Row of the third admin CSV registration (part_000 lines 459-470): here
the name cell falls back from the populated employee to the denormalized
name (`t.employee?.name || t.employeeName`). -/
def adminCsvRowJoined (users : List User) (t : Timesheet) : List String :=
  [(match popEmployee users t with
    | some u => if u.name != "" then u.name else t.employeeName
    | none => t.employeeName),
   ((popEmployee users t).map (fun u => u.email)).getD "",
   ((popEmployee users t).map (fun u => u.employeeId)).getD "",
   ((popEmployee users t).map (fun u => u.department)).getD "",
   isoDateString t.date,
   t.plannedWork, t.actualWork, t.remarks, t.status,
   (if t.adminComments != "" then t.adminComments else "")]

/-! ### HTTP layer: requests, auth, routing

Express dispatches a request to the first registered route whose pattern
matches the path; a later registration at the same path only runs if the
earlier handler calls `next()`, which none of these do. -/

/-- The JWT payload: identity and role. -/
structure AuthUser where
  userId : String
  role : String
deriving Repr, DecidableEq

/-- The world a handler runs against: the record store, the user collection
and the set of currently valid signed tokens (`jwt.verify` succeeds exactly
on these). -/
structure Env where
  store : List Timesheet
  users : List User
  tokens : List (String × AuthUser)
deriving Repr

/-- An incoming GET request: path segments (after the router mount point),
query parameters, and the `Authorization` header if present. -/
structure Request where
  pathSegs : List String
  query : List (String × String)
  authHeader : Option String
deriving Repr, DecidableEq

/-- A response: HTTP status and body text (CSV text, the rendered text of a
PDF, or a JSON message — the body encoding of JSON data responses is
abstracted to a plain rendering). -/
structure Response where
  status : Nat
  body : String
deriving Repr, DecidableEq

/-- `req.query.k` (`none` when absent). -/
def queryParam (req : Request) (k : String) : Option String :=
  (req.query.find? (fun p => p.1 == k)).map (fun p => p.2)

/-- One segment of an Express route pattern: a literal or a `:name` param. -/
inductive Seg where
  | lit (s : String)
  | param (name : String)
deriving Repr, DecidableEq

/-- Match a pattern against concrete path segments, collecting `req.params`
bindings; `none` when the pattern does not match. -/
def matchSegs : List Seg → List String → Option (List (String × String))
  | [], [] => some []
  | Seg.lit s :: ps, x :: xs =>
    if s == x then matchSegs ps xs else none
  | Seg.param n :: ps, x :: xs =>
    (matchSegs ps xs).map (fun bs => (n, x) :: bs)
  | _, _ => none

/-- `req.params.k` (Express params always bind matched segments, so a missing
key only arises off the matched pattern; it defaults to `""`). -/
def getParam (ps : List (String × String)) (k : String) : String :=
  (((ps.find? (fun p => p.1 == k)).map (fun p => p.2))).getD ""

/-- A route handler: environment, request, matched path params to response.
(The GET handlers modelled here never mutate the store.) -/
def Handler : Type := Env → Request → List (String × String) → Response

/-- Extract the bearer token from the `Authorization` header. -/
def bearerToken (h : Option String) : Option String :=
  match h with
  | some s =>
    if charsStartWith s.data "Bearer ".data then
      some (String.mk (s.data.drop 7))
    else none
  | none => none

/-- `jwt.verify(token, secret)`: `some payload` exactly for the currently
valid tokens of the environment. -/
def jwtVerify (tokens : List (String × AuthUser)) (tok : String) :
    Option AuthUser :=
  (tokens.find? (fun p => p.1 == tok)).map (fun p => p.2)

/-- Modelled from the spec: the `auth` middleware
(src/server/middleware/auth is required by the routes but is not among the
sources) — "bearer token carrying identity and role; accepted via standard
auth header", 401 when the credential is missing or invalid. -/
def authMw (env : Env) (req : Request) (k : AuthUser → Response) : Response :=
  match bearerToken req.authHeader with
  | none => { status := 401, body := "No token, authorization denied" }
  | some tok =>
    match jwtVerify env.tokens tok with
    | none => { status := 401, body := "Token is not valid" }
    | some u => k u

/-- Modelled from the spec: the `adminAuth` middleware (same missing module)
— as `auth`, and additionally requires the admin role. -/
def adminAuth (env : Env) (req : Request) (k : AuthUser → Response) :
    Response :=
  match bearerToken req.authHeader with
  | none => { status := 401, body := "No token, authorization denied" }
  | some tok =>
    match jwtVerify env.tokens tok with
    | none => { status := 401, body := "Token is not valid" }
    | some u =>
      if u.role == "admin" then k u
      else { status := 401, body := "Access denied" }

/-- `new Date(s)` on the `YYYY-MM-DD` strings this API exchanges; any other
shape is an invalid date (`none`, the model of `NaN`). -/
def parseDate (s : String) : Option Int :=
  match (s.splitOn "-").map (fun p => p.toNat?) with
  | [some y, some m, some d] => some (daysFromCivil y m d)
  | _ => none

/-- `"YYYY-MM".split('-')` of the `month` export parameter. -/
def parseMonth (s : String) : Option (Int × Int) :=
  match (s.splitOn "-").map (fun p => p.toNat?) with
  | [some y, some m] => some ((y : Int), (m : Int))
  | _ => none

/-- `if (startDate && endDate) query.date = {$gte, $lte}` at the HTTP
layer: both parameters present and truthy add the range condition; an
unparseable bound gives a `NaN` comparison that matches nothing. -/
def dateRangeFilterStr (sd ed : Option String) (t : Timesheet) : Bool :=
  match sd, ed with
  | some a, some b =>
    if a != "" && b != "" then
      match parseDate a, parseDate b with
      | some x, some y => decide (x ≤ t.date) && decide (t.date ≤ y)
      | _, _ => false
    else true
  | _, _ => true

/-- Date condition of the second admin CSV registration (part_000 lines
302-308): a `month` parameter (truthy) overrides `date` with the
first-to-last-day range of that month; otherwise a truthy `date` must match
exactly; an unparseable value is a `NaN` date matching nothing. -/
def csvDateOrMonthFilter (dateQ monthQ : Option String) (t : Timesheet) :
    Bool :=
  match monthQ with
  | some mo =>
    if mo != "" then
      match parseMonth mo with
      | some (y, m) =>
        decide (daysFromCivil y m 1 ≤ t.date) &&
          decide (t.date ≤ daysFromCivil y (m + 1) 0)
      | none => false
    else
      match dateQ with
      | some ds =>
        if ds != "" then
          match parseDate ds with
          | some x => t.date == x
          | none => false
        else true
      | none => true
  | none =>
    match dateQ with
    | some ds =>
      if ds != "" then
        match parseDate ds with
        | some x => t.date == x
        | none => false
      else true
    | none => true

/-- `if (employee) query.employee = employee` of the second admin CSV
registration (no `"all"` special case there). -/
def employeeTruthyFilter (emp : Option String) (t : Timesheet) : Bool :=
  match emp with
  | some e => if e != "" then t.employee == e else true
  | none => true

/-- Rendering of a JSON list of documents (presentation only: ids joined). -/
def renderDocs (l : List Timesheet) : String :=
  String.intercalate ";" (l.map (fun t => t.id))

/-- Rendering of a JSON list of users (presentation only: names joined). -/
def renderUsers (l : List User) : String :=
  String.intercalate ";" (l.map (fun u => u.name))

/-- Stable insertion for ascending-date order (`.sort({date: 1})`, used only
by the employee `download-pdf` route). -/
def insertByDateAsc (x : Timesheet) : List Timesheet → List Timesheet
  | [] => [x]
  | y :: ys =>
    if decide (x.date < y.date) then x :: y :: ys
    else y :: insertByDateAsc x ys

/-- `.sort({date: 1})`: stable ascending sort by `date`. -/
def sortByDateAsc (l : List Timesheet) : List Timesheet :=
  l.foldr insertByDateAsc []

/-- Text of the single-record PDF of `GET /admin/timesheets/:id/download`
(part_000 lines 247-255); `toLocaleDateString` is rendered as the ISO day. -/
def pdfDownloadText (t : Timesheet) : String :=
  String.intercalate "\n"
    ["Timesheet Details",
     "Employee Name: " ++ t.employeeName,
     "Date: " ++ isoDateString t.date,
     "Planned Work: " ++ t.plannedWork,
     "Actual Work: " ++ t.actualWork,
     "Remarks: " ++ (if t.remarks != "" then t.remarks else "None"),
     "Status: " ++ t.status,
     "Admin Comments: " ++
       (if t.adminComments != "" then t.adminComments else "None")]

/-- Text of the single-record PDF of the first registration of
`GET /admin/timesheets/:id/export/pdf` (part_000 lines 277-288): admin
comments appear only when truthy. -/
def pdfReportText (t : Timesheet) : String :=
  String.intercalate "\n"
    (["Timesheet Report",
      "Employee: " ++ t.employeeName,
      "Date: " ++ isoDateString t.date,
      "Planned Work: " ++ t.plannedWork,
      "Actual Work: " ++ t.actualWork,
      "Remarks: " ++ t.remarks,
      "Status: " ++ t.status] ++
     (if t.adminComments != "" then ["Admin Comments: " ++ t.adminComments]
      else []))

/-- Text of the single-record PDF of the second registration of
`GET /admin/timesheets/:id/export/pdf` (part_000 lines 419-429). -/
def pdfDetailsText (t : Timesheet) : String :=
  String.intercalate "\n"
    (["Timesheet Details",
      "Employee: " ++ t.employeeName,
      "Date: " ++ isoDateString t.date,
      "Planned Work: " ++ t.plannedWork,
      "Actual Work: " ++ t.actualWork,
      "Remarks: " ++ t.remarks,
      "Status: " ++ t.status] ++
     (if t.adminComments != "" then ["Admin Comments: " ++ t.adminComments]
      else []))

/-- Text of the multi-record PDF of `GET /admin/timesheets/export` with
`format=pdf` (part_000 lines 364-375). -/
def filteredPdfText (docs : List Timesheet) : String :=
  String.intercalate "\n"
    ("Filtered Timesheets Report" ::
      docs.map (fun t => String.intercalate "\n"
        ["Date: " ++ isoDateString t.date,
         "Planned: " ++ t.plannedWork,
         "Actual: " ++ t.actualWork,
         "Remarks: " ++ t.remarks,
         "Status: " ++ t.status,
         "Comments: " ++
           (if t.adminComments != "" then t.adminComments else "-")]))

/-- Text of the multi-record employee PDF export (timesheets.js 144-176). -/
def employeePdfText (docs : List Timesheet) : String :=
  String.intercalate "\n"
    ("Timesheet Report" ::
      docs.map (fun t => String.intercalate "\n"
        ["Employee: " ++ t.employeeName,
         "Date: " ++ isoDateString t.date,
         "Planned Work: " ++ t.plannedWork,
         "Actual Work: " ++ t.actualWork,
         "Remarks: " ++ (if t.remarks != "" then t.remarks else "None"),
         "Status: " ++ t.status]))

/-- Text of the employee `download-pdf` export (timesheets.js 179-214). -/
def downloadPdfText (uname : String) (docs : List Timesheet) : String :=
  String.intercalate "\n"
    (("Timesheets for " ++ uname) ::
      docs.map (fun t => String.intercalate "\n"
        ["Date: " ++ isoDateString t.date,
         "Planned Work: " ++ t.plannedWork,
         "Actual Work: " ++ t.actualWork,
         "Remarks: " ++ (if t.remarks != "" then t.remarks else "-"),
         "Status: " ++ t.status,
         "Admin Comments: " ++
           (if t.adminComments != "" then t.adminComments else "-")]))

/-! ### The admin router's GET handlers (src/unnamed/part_000), in
registration order. -/

/-- `GET /admin/employees` (lines 14-24). -/
def employeesHandler : Handler := fun env req _ =>
  adminAuth env req (fun _ =>
    { status := 200,
      body := renderUsers (env.users.filter (fun u => u.role == "employee")) })

/-- `GET /admin/timesheets` (lines 104-142): the admin list query. -/
def adminTimesheetsHandler : Handler := fun env req _ =>
  adminAuth env req (fun _ =>
    { status := 200,
      body := renderDocs (sortByDateDesc (env.store.filter (fun t =>
        employeeParamFilter (queryParam req "employee") t &&
          statusFilter (queryParam req "status") t &&
          dateRangeFilterStr (queryParam req "startDate")
            (queryParam req "endDate") t &&
          searchFilter (queryParam req "search") t))) })

/-- `GET /admin/timesheets/export/csv`, FIRST registration (lines 173-205):
exports every timesheet; the request's query parameters are never read. -/
def adminCsvAllHandler : Handler := fun env req _ =>
  adminAuth env req (fun _ =>
    { status := 200,
      body := csvRender (adminCsvExportAll env.store env.users) })

/-- `GET /admin/dashboard` (lines 208-228): the five aggregate counts. -/
def dashboardHandler : Handler := fun env req _ =>
  adminAuth env req (fun _ =>
    { status := 200,
      body := String.intercalate ","
        ([env.store.length,
          (env.store.filter (fun t => t.status == "pending")).length,
          (env.store.filter (fun t => t.status == "accepted")).length,
          (env.store.filter (fun t => t.status == "rejected")).length,
          (env.users.filter (fun u => u.role == "employee")).length].map
          toString) })

/-- `GET /admin/timesheets/:id/download` (lines 232-262). -/
def downloadHandler : Handler := fun env req ps =>
  adminAuth env req (fun _ =>
    match findById env.store (getParam ps "id") with
    | none => { status := 404, body := "Timesheet not found" }
    | some t => { status := 200, body := pdfDownloadText t })

/-- `GET /admin/timesheets/:id/export/pdf`, FIRST registration (lines
265-293): behind `adminAuth`, header-only credentials. -/
def pdfAdminHandler : Handler := fun env req ps =>
  adminAuth env req (fun _ =>
    match findById env.store (getParam ps "id") with
    | none => { status := 404, body := "Not found" }
    | some t => { status := 200, body := pdfReportText t })

/-- `GET /admin/timesheets/export/csv`, SECOND registration (lines 296-323):
employee/date/month filters, 7 columns — shadowed by the first. -/
def adminCsvFilteredHandler : Handler := fun env req _ =>
  adminAuth env req (fun _ =>
    { status := 200,
      body := csvRender (empCsvHeader ::
        (sortByDateDesc (env.store.filter (fun t =>
          employeeTruthyFilter (queryParam req "employee") t &&
            csvDateOrMonthFilter (queryParam req "date")
              (queryParam req "month") t))).map empCsvRow) })

/-- `GET /admin/timesheets/export` (lines 327-385): combined CSV/PDF export
of one employee's records, `employeeId` and `format` required. -/
def exportCombinedHandler : Handler := fun env req _ =>
  adminAuth env req (fun _ =>
    let empId := (queryParam req "employeeId").getD ""
    let fmt := (queryParam req "format").getD ""
    if empId == "" || fmt == "" then
      { status := 400, body := "Employee ID and format are required" }
    else
      let docs := sortByDateDesc (env.store.filter (fun t =>
        t.employee == empId &&
          dateRangeFilterStr (queryParam req "startDate")
            (queryParam req "endDate") t))
      if fmt == "csv" then
        { status := 200, body := csvRender (empCsvHeader :: docs.map empCsvRow) }
      else if fmt == "pdf" then
        { status := 200, body := filteredPdfText docs }
      else { status := 400, body := "Invalid format" })

/-- `GET /admin/timesheets/:id/export/pdf`, SECOND registration (lines
387-436): no middleware; reads the token from the `Authorization` header,
falling back to the `token` query parameter — shadowed by the first
registration at the same path. -/
def pdfQueryTokenHandler : Handler := fun env req ps =>
  let tok :=
    match bearerToken req.authHeader with
    | some t => some t
    | none =>
      match queryParam req "token" with
      | some t => if t != "" then some t else none
      | none => none
  match tok with
  | none => { status := 401, body := "No token, authorization denied" }
  | some tk =>
    match jwtVerify env.tokens tk with
    | none => { status := 401, body := "Token is not valid" }
    | some _ =>
      match findById env.store (getParam ps "id") with
      | none => { status := 404, body := "Timesheet not found" }
      | some t => { status := 200, body := pdfDetailsText t }

/-- `GET /admin/timesheets/export/csv`, THIRD registration (lines 439-495):
employee/date-range filters, 10 columns with joined-name fallback —
shadowed by the first. -/
def adminCsvRangeHandler : Handler := fun env req _ =>
  adminAuth env req (fun _ =>
    { status := 200,
      body := csvRender (adminCsvHeader ::
        (sortByDateDesc (env.store.filter (fun t =>
          employeeParamFilter (queryParam req "employee") t &&
            dateRangeFilterStr (queryParam req "startDate")
              (queryParam req "endDate") t))).map
          (adminCsvRowJoined env.users)) })

/-! ### The employee router's GET handlers (src/server/routes/timesheets.js). -/

/-- `GET /timesheets` (lines 10-35). -/
def employeeListHandler : Handler := fun env req _ =>
  authMw env req (fun u =>
    { status := 200,
      body := renderDocs (sortByDateDesc (env.store.filter (fun t =>
        t.employee == u.userId &&
          statusFilter (queryParam req "status") t &&
          dateRangeFilterStr (queryParam req "startDate")
            (queryParam req "endDate") t))) })

/-- `GET /timesheets/export/csv` (lines 124-141). -/
def employeeCsvHandler : Handler := fun env req _ =>
  authMw env req (fun u =>
    { status := 200, body := csvRender (employeeCsvExport env.store u.userId) })

/-- `GET /timesheets/export/pdf` (lines 144-176). -/
def employeePdfHandler : Handler := fun env req _ =>
  authMw env req (fun u =>
    { status := 200,
      body := employeePdfText (employeeOwnedDocs env.store u.userId) })

/-- `GET /timesheets/download-pdf` (lines 179-214): ascending date order,
404 on an empty result. -/
def downloadPdfHandler : Handler := fun env req _ =>
  authMw env req (fun u =>
    let docs := sortByDateAsc (env.store.filter (fun t =>
      t.employee == u.userId))
    if docs.isEmpty then { status := 404, body := "No timesheets found." }
    else { status := 200, body := downloadPdfText u.userId docs })

/-- The admin router's GET routes in their registration order in
src/unnamed/part_000. -/
def adminGetRoutes : List (List Seg × Handler) :=
  [([Seg.lit "employees"], employeesHandler),
   ([Seg.lit "timesheets"], adminTimesheetsHandler),
   ([Seg.lit "timesheets", Seg.lit "export", Seg.lit "csv"],
     adminCsvAllHandler),
   ([Seg.lit "dashboard"], dashboardHandler),
   ([Seg.lit "timesheets", Seg.param "id", Seg.lit "download"],
     downloadHandler),
   ([Seg.lit "timesheets", Seg.param "id", Seg.lit "export", Seg.lit "pdf"],
     pdfAdminHandler),
   ([Seg.lit "timesheets", Seg.lit "export", Seg.lit "csv"],
     adminCsvFilteredHandler),
   ([Seg.lit "timesheets", Seg.lit "export"], exportCombinedHandler),
   ([Seg.lit "timesheets", Seg.param "id", Seg.lit "export", Seg.lit "pdf"],
     pdfQueryTokenHandler),
   ([Seg.lit "timesheets", Seg.lit "export", Seg.lit "csv"],
     adminCsvRangeHandler)]

/-- The employee router's GET routes in their registration order in
src/server/routes/timesheets.js. -/
def employeeGetRoutes : List (List Seg × Handler) :=
  [([], employeeListHandler),
   ([Seg.lit "export", Seg.lit "csv"], employeeCsvHandler),
   ([Seg.lit "export", Seg.lit "pdf"], employeePdfHandler),
   ([Seg.lit "download-pdf"], downloadPdfHandler)]

/-- Express routing: the first registered route whose pattern matches the
path handles the request (none of the modelled handlers calls `next()`). -/
def dispatch (routes : List (List Seg × Handler)) (env : Env)
    (req : Request) : Response :=
  match routes.find? (fun r => (matchSegs r.1 req.pathSegs).isSome) with
  | some r => r.2 env req ((matchSegs r.1 req.pathSegs).getD [])
  | none => { status := 404, body := "Cannot GET" }

/-- A request to the admin CSV export path. -/
def csvReq (q : List (String × String)) (h : Option String) : Request :=
  { pathSegs := ["timesheets", "export", "csv"], query := q, authHeader := h }

/-- A request to the single-record admin PDF export path. -/
def pdfReq (id : String) (q : List (String × String)) (h : Option String) :
    Request :=
  { pathSegs := ["timesheets", id, "export", "pdf"], query := q,
    authHeader := h }

/-- Concrete sample documents used to instantiate the theorems. -/
def tsA : Timesheet :=
  { id := "t1", employee := "e1", employeeName := "Alice", date := 19785,
    plannedWork := "plan", actualWork := "act", remarks := "",
    status := "accepted", adminComments := "", reviewedBy := none,
    reviewedAt := none }

def tsB : Timesheet :=
  { id := "t2", employee := "e1", employeeName := "Alice", date := 19786,
    plannedWork := "p2", actualWork := "a2", remarks := "r2",
    status := "pending", adminComments := "", reviewedBy := none,
    reviewedAt := none }

/-- A user document joined against `tsA`/`tsB` (their owner `e1`), whose
profile name differs from the denormalized `employeeName`. -/
def userB : User :=
  { id := "e1", name := "New Name", email := "alice at example",
    employeeId := "E-1", department := "Eng", role := "employee" }

/-- A signed-in admin identity. -/
def adminU : AuthUser := { userId := "a1", role := "admin" }

/-- A concrete environment: two stored timesheets, one user, one valid
token. -/
def env0 : Env :=
  { store := [tsA, tsB], users := [userB], tokens := [("tok1", adminU)] }

/-- A handler accepts credentials only through the `Authorization` header
when, whatever the query string carries, a request without that header is
refused with the 401 no-token response. -/
def headerOnly (h : Handler) : Prop :=
  ∀ env req ps, req.authHeader = none →
    h env req ps = { status := 401, body := "No token, authorization denied" }

/-! ## Theorems -/

/-- C1: the admin review operation is total in the prior status: whenever the
record exists (the store being schema-valid and the target status in the
enum), review succeeds and sets `status`, `adminComments`, `reviewedBy` and
`reviewedAt`; it answers NotFound exactly when no record with the id exists. -/
theorem review_total_and_notFound_iff
    (store : List Timesheet) (id rid y c : String) (now : Int)
    (hy : validStatus y = true) (hwf : storeWF store = true) :
    ((reviewTimesheet store id rid y c now).1 = Except.error ApiError.notFound
       ↔ findById store id = none)
    ∧ (∀ t, findById store id = some t →
        reviewTimesheet store id rid y c now =
          (Except.ok (reviewedDoc t rid y c now),
           store.map (fun u => if u.id == id then reviewedDoc t rid y c now else u))
        ∧ (reviewedDoc t rid y c now).status = y
        ∧ (reviewedDoc t rid y c now).adminComments = strim c
        ∧ (reviewedDoc t rid y c now).reviewedBy = some rid
        ∧ (reviewedDoc t rid y c now).reviewedAt = some now) := by
  simp only [storeWF, List.all_eq_true] at hwf
  have hv : ∀ t, findById store id = some t →
      validTimesheet (reviewedDoc t rid y c now) = true := by
    intro t h
    have ht : t ∈ store := List.mem_of_find?_eq_some h
    have hwt := hwf t ht
    simp only [validTimesheet, reviewedDoc, Bool.and_eq_true] at hwt ⊢
    exact ⟨⟨⟨hwt.1.1.1, hwt.1.1.2⟩, hwt.1.2⟩, hy⟩
  constructor
  · cases h : findById store id with
    | none => simp [reviewTimesheet, h]
    | some t => simp [reviewTimesheet, h, hv t h]
  · intro t h
    refine ⟨?_, rfl, rfl, rfl, rfl⟩
    simp [reviewTimesheet, h, hv t h]

theorem review_total_witness :
    validStatus "rejected" = true ∧ storeWF [tsA] = true ∧
    reviewTimesheet [tsA] "t1" "a1" "rejected" "redo" 5 =
      (Except.ok (reviewedDoc tsA "a1" "rejected" "redo" 5),
       [reviewedDoc tsA "a1" "rejected" "redo" 5]) :=
  ⟨by decide, by decide,
   by
    have h := ((review_total_and_notFound_iff [tsA] "t1" "a1" "rejected" "redo" 5
      (by decide) (by decide)).2 tsA (by decide)).1
    simpa using h⟩

/-- C2: creation answers 400 Conflict, leaving the store unchanged, exactly
when a record for the same `(employee, date)` pair is already stored;
otherwise (for well-formed input text) it appends a fresh record with
status `pending`. -/
theorem create_conflict_iff_duplicate
    (store : List Timesheet) (uid uname : String) (d : Int)
    (pw aw rm nid : String)
    (hname : uname ≠ "") (hpw : strim pw ≠ "") (haw : strim aw ≠ "") :
    (store.any (fun t => t.employee == uid && t.date == d) = true →
      createTimesheet store uid uname d pw aw rm nid =
        (Except.error ApiError.conflict, store))
    ∧ (store.any (fun t => t.employee == uid && t.date == d) = false →
      createTimesheet store uid uname d pw aw rm nid =
          (Except.ok (newDoc uid uname d pw aw rm nid),
           store ++ [newDoc uid uname d pw aw rm nid])
        ∧ (newDoc uid uname d pw aw rm nid).status = "pending"
        ∧ (newDoc uid uname d pw aw rm nid).employee = uid
        ∧ (newDoc uid uname d pw aw rm nid).date = d) := by
  constructor
  · intro h
    simp [createTimesheet, h]
  · intro h
    refine ⟨?_, rfl, rfl, rfl⟩
    simp [createTimesheet, h, validTimesheet, validStatus, newDoc, hname, hpw, haw]

theorem create_conflict_witness :
    ("Bob" ≠ "" ∧ strim "p" ≠ "" ∧ strim "a" ≠ "") ∧
    createTimesheet [tsA] "e1" "Bob" 19785 "p" "a" "" "t9" =
      (Except.error ApiError.conflict, [tsA]) ∧
    createTimesheet [tsA] "e2" "Bob" 19785 "p" "a" "" "t9" =
      (Except.ok (newDoc "e2" "Bob" 19785 "p" "a" "" "t9"),
       [tsA] ++ [newDoc "e2" "Bob" 19785 "p" "a" "" "t9"]) ∧
    (newDoc "e2" "Bob" 19785 "p" "a" "" "t9").status = "pending" :=
  ⟨⟨by decide, by decide, by decide⟩,
   (create_conflict_iff_duplicate [tsA] "e1" "Bob" 19785 "p" "a" "" "t9"
      (by decide) (by decide) (by decide)).1 (by decide),
   ((create_conflict_iff_duplicate [tsA] "e2" "Bob" 19785 "p" "a" "" "t9"
      (by decide) (by decide) (by decide)).2 (by decide)).1,
   ((create_conflict_iff_duplicate [tsA] "e2" "Bob" 19785 "p" "a" "" "t9"
      (by decide) (by decide) (by decide)).2 (by decide)).2.1⟩

/-- C3: employee update answers NotFound when no record with the id is owned
by the requester, InvalidState when the status is neither `pending` nor
`rejected`, and otherwise (for well-formed input text) overwrites exactly
`plannedWork`/`actualWork`/`remarks`, leaving `status`, `employee`,
`employeeName`, `date`, `adminComments`, `reviewedBy` and `reviewedAt`
unchanged. -/
theorem update_guards_and_frame
    (store : List Timesheet) (id uid pw aw rm : String)
    (hwf : storeWF store = true)
    (hpw : strim pw ≠ "") (haw : strim aw ≠ "") :
    (findOwned store id uid = none →
      updateTimesheet store id uid pw aw rm =
        (Except.error ApiError.notFound, store))
    ∧ (∀ t, findOwned store id uid = some t →
        t.status ≠ "pending" → t.status ≠ "rejected" →
        updateTimesheet store id uid pw aw rm =
          (Except.error ApiError.invalidState, store))
    ∧ (∀ t, findOwned store id uid = some t →
        (t.status = "pending" ∨ t.status = "rejected") →
        updateTimesheet store id uid pw aw rm =
          (Except.ok (updatedDoc t pw aw rm),
           store.map (fun u => if u.id == id then updatedDoc t pw aw rm else u))
        ∧ (updatedDoc t pw aw rm).status = t.status
        ∧ (updatedDoc t pw aw rm).employee = t.employee
        ∧ (updatedDoc t pw aw rm).employeeName = t.employeeName
        ∧ (updatedDoc t pw aw rm).date = t.date
        ∧ (updatedDoc t pw aw rm).adminComments = t.adminComments
        ∧ (updatedDoc t pw aw rm).reviewedBy = t.reviewedBy
        ∧ (updatedDoc t pw aw rm).reviewedAt = t.reviewedAt
        ∧ (updatedDoc t pw aw rm).plannedWork = strim pw
        ∧ (updatedDoc t pw aw rm).actualWork = strim aw
        ∧ (updatedDoc t pw aw rm).remarks = strim rm) := by
  simp only [storeWF, List.all_eq_true] at hwf
  refine ⟨?_, ?_, ?_⟩
  · intro h
    simp [updateTimesheet, h]
  · intro t h h1 h2
    simp [updateTimesheet, h, h1, h2]
  · intro t h hst
    have ht : t ∈ store := List.mem_of_find?_eq_some h
    have hwt := hwf t ht
    simp only [validTimesheet, Bool.and_eq_true] at hwt
    have hv : validTimesheet (updatedDoc t pw aw rm) = true := by
      simp only [validTimesheet, updatedDoc, Bool.and_eq_true]
      refine ⟨⟨⟨hwt.1.1.1, ?_⟩, ?_⟩, hwt.2⟩
      · simpa using hpw
      · simpa using haw
    have hguard : (t.status != "pending" && t.status != "rejected") = false := by
      rcases hst with h' | h' <;> simp [h']
    refine ⟨?_, rfl, rfl, rfl, rfl, rfl, rfl, rfl, rfl, rfl, rfl⟩
    simp [updateTimesheet, h, hguard, hv]

theorem update_witness :
    storeWF [tsA, tsB] = true ∧ strim "np" ≠ "" ∧ strim "na" ≠ "" ∧
    findOwned [tsA, tsB] "t2" "e1" = some tsB ∧
    updateTimesheet [tsA, tsB] "t2" "e1" "np" "na" "nr" =
      (Except.ok (updatedDoc tsB "np" "na" "nr"),
       [tsA, updatedDoc tsB "np" "na" "nr"]) ∧
    updateTimesheet [tsA, tsB] "t1" "e1" "np" "na" "nr" =
      (Except.error ApiError.invalidState, [tsA, tsB]) ∧
    updateTimesheet [tsA, tsB] "t7" "e1" "np" "na" "nr" =
      (Except.error ApiError.notFound, [tsA, tsB]) :=
  ⟨by decide, by decide, by decide, by decide,
   by
    have h := ((update_guards_and_frame [tsA, tsB] "t2" "e1" "np" "na" "nr"
      (by decide) (by decide) (by decide)).2.2 tsB (by decide) (Or.inl (by decide))).1
    simpa using h,
   (update_guards_and_frame [tsA, tsB] "t1" "e1" "np" "na" "nr"
      (by decide) (by decide) (by decide)).2.1 tsA (by decide)
      (by decide) (by decide),
   (update_guards_and_frame [tsA, tsB] "t7" "e1" "np" "na" "nr"
      (by decide) (by decide) (by decide)).1 (by decide)⟩

/-- C4: employee delete answers NotFound when no record with the id is owned
by the requester, InvalidState when the status is not `pending`, and
otherwise removes exactly the record with that id: it is no longer found by
a subsequent `findById`, and every other record is still stored. -/
theorem delete_guards_and_removal
    (store : List Timesheet) (id uid : String) :
    (findOwned store id uid = none →
      deleteTimesheet store id uid = (Except.error ApiError.notFound, store))
    ∧ (∀ t, findOwned store id uid = some t → t.status ≠ "pending" →
        deleteTimesheet store id uid =
          (Except.error ApiError.invalidState, store))
    ∧ (∀ t, findOwned store id uid = some t → t.status = "pending" →
        deleteTimesheet store id uid =
          (Except.ok (), store.filter (fun u => u.id != id))
        ∧ findById (deleteTimesheet store id uid).2 id = none
        ∧ ∀ u ∈ store, u.id ≠ id → u ∈ (deleteTimesheet store id uid).2) := by
  refine ⟨?_, ?_, ?_⟩
  · intro h
    simp [deleteTimesheet, h]
  · intro t h h1
    simp [deleteTimesheet, h, h1]
  · intro t h h1
    have hdel : deleteTimesheet store id uid =
        (Except.ok (), store.filter (fun u => u.id != id)) := by
      simp [deleteTimesheet, h, h1]
    refine ⟨hdel, ?_, ?_⟩
    · rw [hdel]
      simp only [findById]
      rw [List.find?_eq_none]
      intro u hu
      have := (List.mem_filter.mp hu).2
      simpa using this
    · intro u hu hne
      rw [hdel]
      simp only
      exact List.mem_filter.mpr ⟨hu, by simpa using hne⟩

theorem delete_witness :
    findOwned [tsA, tsB] "t2" "e1" = some tsB ∧ tsB.status = "pending" ∧
    deleteTimesheet [tsA, tsB] "t2" "e1" = (Except.ok (), [tsA]) ∧
    findById [tsA] "t2" = none ∧
    deleteTimesheet [tsA, tsB] "t1" "e1" =
      (Except.error ApiError.invalidState, [tsA, tsB]) ∧
    deleteTimesheet [tsA, tsB] "t9" "e1" =
      (Except.error ApiError.notFound, [tsA, tsB]) :=
  ⟨by decide, by decide,
   by
    have h := ((delete_guards_and_removal [tsA, tsB] "t2" "e1").2.2 tsB
      (by decide) (by decide)).1
    simpa using h,
   by decide,
   (delete_guards_and_removal [tsA, tsB] "t1" "e1").2.1 tsA (by decide)
     (by decide),
   (delete_guards_and_removal [tsA, tsB] "t9" "e1").1 (by decide)⟩

/-- C10: every operation keeps each stored status inside the schema enum
`{pending, accepted, rejected}`: creation uses the `pending` default, the
employee update leaves `status` untouched, deletion only removes documents,
and a review whose target status is outside the enum fails mongoose
validation (a generic 500) and leaves the store unchanged. -/
theorem status_enum_invariant
    (store : List Timesheet) :
    (∀ uid uname d pw aw rm nid, statusWF store = true →
      statusWF (createTimesheet store uid uname d pw aw rm nid).2 = true)
    ∧ (∀ uid uname d pw aw rm nid ts s',
        createTimesheet store uid uname d pw aw rm nid = (Except.ok ts, s') →
        ts.status = "pending")
    ∧ (∀ id uid pw aw rm, statusWF store = true →
      statusWF (updateTimesheet store id uid pw aw rm).2 = true)
    ∧ (∀ id uid, statusWF store = true →
      statusWF (deleteTimesheet store id uid).2 = true)
    ∧ (∀ id rid y c now, statusWF store = true →
      statusWF (reviewTimesheet store id rid y c now).2 = true)
    ∧ (∀ id rid y c now t, findById store id = some t → validStatus y = false →
      reviewTimesheet store id rid y c now =
        (Except.error ApiError.serverError, store)) := by
  refine ⟨?_, ?_, ?_, ?_, ?_, ?_⟩
  · intro uid uname d pw aw rm nid hs
    unfold createTimesheet
    by_cases h : store.any (fun t => t.employee == uid && t.date == d) = true
    · simp [h, hs]
    · simp only [Bool.not_eq_true] at h
      by_cases hv : validTimesheet (newDoc uid uname d pw aw rm nid) = true
      · simp only [h, hv, Bool.false_eq_true, if_false, if_true]
        simp only [statusWF, List.all_append, List.all_cons, List.all_nil,
          Bool.and_true, Bool.and_eq_true] at hs ⊢
        exact ⟨hs, by simp [newDoc, validStatus]⟩
      · simp only [Bool.not_eq_true] at hv
        simp [h, hv, hs]
  · intro uid uname d pw aw rm nid ts s' h
    unfold createTimesheet at h
    by_cases hd : store.any (fun t => t.employee == uid && t.date == d) = true
    · simp [hd] at h
    · simp only [Bool.not_eq_true] at hd
      by_cases hv : validTimesheet (newDoc uid uname d pw aw rm nid) = true
      · simp only [hd, hv, Bool.false_eq_true, if_false, if_true,
          Prod.mk.injEq, Except.ok.injEq] at h
        cases h.1
        rfl
      · simp only [Bool.not_eq_true] at hv
        simp [hd, hv] at h
  · intro id uid pw aw rm hs
    unfold updateTimesheet
    cases h : findOwned store id uid with
    | none => simpa using hs
    | some t =>
      by_cases hg : (t.status != "pending" && t.status != "rejected") = true
      · simp [hg, hs]
      · simp only [Bool.not_eq_true] at hg
        by_cases hv : validTimesheet (updatedDoc t pw aw rm) = true
        · simp only [hg, hv, Bool.false_eq_true, if_false, if_true]
          simp only [statusWF, List.all_eq_true, List.mem_map] at hs ⊢
          rintro x ⟨u, hu, rfl⟩
          by_cases he : (u.id == id) = true
          · simp only [he, if_true]
            have := hs t (List.mem_of_find?_eq_some h)
            simpa [updatedDoc] using this
          · simp only [Bool.not_eq_true] at he
            simp only [he, Bool.false_eq_true, if_false]
            exact hs u hu
        · simp only [Bool.not_eq_true] at hv
          simp [hg, hv, hs]
  · intro id uid hs
    unfold deleteTimesheet
    cases h : findOwned store id uid with
    | none => simpa using hs
    | some t =>
      by_cases hg : t.status != "pending"
      · simp [hg, hs]
      · simp only [Bool.not_eq_true] at hg
        simp only [hg, Bool.false_eq_true, if_false]
        simp only [statusWF, List.all_eq_true] at hs ⊢
        intro u hu
        exact hs u (List.mem_filter.mp hu).1
  · intro id rid y c now hs
    unfold reviewTimesheet
    cases h : findById store id with
    | none => simpa using hs
    | some t =>
      by_cases hv : validTimesheet (reviewedDoc t rid y c now) = true
      · simp only [hv, if_true]
        simp only [statusWF, List.all_eq_true, List.mem_map] at hs ⊢
        rintro x ⟨u, hu, rfl⟩
        by_cases he : (u.id == id) = true
        · simp only [he, if_true]
          simp only [validTimesheet, Bool.and_eq_true] at hv
          simpa [reviewedDoc] using hv.2
        · simp only [Bool.not_eq_true] at he
          simp only [he, Bool.false_eq_true, if_false]
          exact hs u hu
      · simp only [Bool.not_eq_true] at hv
        simp [hv, hs]
  · intro id rid y c now t hfind hy
    have hv : validTimesheet (reviewedDoc t rid y c now) = false := by
      simp [validTimesheet, reviewedDoc, hy]
    simp [reviewTimesheet, hfind, hv]

theorem status_enum_invariant_witness :
    statusWF [tsA, tsB] = true ∧
    statusWF (createTimesheet [tsA, tsB] "e2" "Bob" 3 "p" "a" "" "t9").2 = true ∧
    statusWF (reviewTimesheet [tsA, tsB] "t2" "a1" "approved" "" 5).2 = true ∧
    (findById [tsA, tsB] "t2" = some tsB ∧ validStatus "approved" = false) ∧
    reviewTimesheet [tsA, tsB] "t2" "a1" "approved" "" 5 =
      (Except.error ApiError.serverError, [tsA, tsB]) :=
  ⟨by decide,
   (status_enum_invariant [tsA, tsB]).1 "e2" "Bob" 3 "p" "a" "" "t9" (by decide),
   (status_enum_invariant [tsA, tsB]).2.2.2.2.1 "t2" "a1" "approved" "" 5
     (by decide),
   ⟨by decide, by decide⟩,
   (status_enum_invariant [tsA, tsB]).2.2.2.2.2 "t2" "a1" "approved" "" 5 tsB
     (by decide) (by decide)⟩

theorem mem_insertByDateDesc (x u : Timesheet) (l : List Timesheet) :
    u ∈ insertByDateDesc x l ↔ u = x ∨ u ∈ l := by
  induction l with
  | nil => simp [insertByDateDesc]
  | cons y ys ih =>
    by_cases h : (decide (y.date < x.date)) = true
    · simp [insertByDateDesc, h]
    · simp only [Bool.not_eq_true] at h
      simp [insertByDateDesc, h, ih]
      tauto

theorem length_insertByDateDesc (x : Timesheet) (l : List Timesheet) :
    (insertByDateDesc x l).length = l.length + 1 := by
  induction l with
  | nil => simp [insertByDateDesc]
  | cons y ys ih =>
    by_cases h : (decide (y.date < x.date)) = true
    · simp [insertByDateDesc, h]
    · simp only [Bool.not_eq_true] at h
      simp [insertByDateDesc, h, ih]

theorem mem_sortByDateDesc (u : Timesheet) (l : List Timesheet) :
    u ∈ sortByDateDesc l ↔ u ∈ l := by
  induction l with
  | nil => simp [sortByDateDesc]
  | cons y ys ih =>
    simp only [sortByDateDesc, List.foldr_cons] at ih ⊢
    rw [mem_insertByDateDesc, ih, List.mem_cons]

theorem length_sortByDateDesc (l : List Timesheet) :
    (sortByDateDesc l).length = l.length := by
  induction l with
  | nil => simp [sortByDateDesc]
  | cons y ys ih =>
    simp only [sortByDateDesc, List.foldr_cons] at ih ⊢
    rw [length_insertByDateDesc, ih, List.length_cons]

/-- C6: owner scoping — the employee-tier list filter and export query admit
only documents owned by the requester, while the admin list filter imposes
no owner restriction when the employee parameter is absent/empty/"all" and
restricts to exactly the given employee when one is supplied. -/
theorem owner_scoping
    (store : List Timesheet) (uid : String) (status : Option String)
    (sd ed : Option Int) (emp search : Option String) :
    (∀ t, employeeListFilter uid status sd ed t = true → t.employee = uid)
    ∧ (∀ t, t ∈ employeeOwnedDocs store uid → t.employee = uid)
    ∧ ((emp = none ∨ emp = some "" ∨ emp = some "all") → ∀ t e',
        adminListFilter emp status sd ed search { t with employee := e' } =
          adminListFilter emp status sd ed search t)
    ∧ (∀ e, (e != "" && e != "all") = true →
        ∀ t, adminListFilter (some e) status sd ed search t = true →
          t.employee = e) := by
  refine ⟨?_, ?_, ?_, ?_⟩
  · intro t h
    simp only [employeeListFilter, Bool.and_eq_true, beq_iff_eq] at h
    exact h.1.1
  · intro t h
    rw [employeeOwnedDocs, mem_sortByDateDesc, List.mem_filter] at h
    simpa using h.2
  · rintro (rfl | rfl | rfl) t e' <;>
      simp [adminListFilter, employeeParamFilter, statusFilter,
        dateRangeFilter, searchFilter]
  · intro e he t h
    simp only [adminListFilter, employeeParamFilter, he, if_true,
      Bool.and_eq_true, beq_iff_eq] at h
    exact h.1.1.1

theorem owner_scoping_witness :
    employeeListFilter "e1" none none none tsA = true ∧ tsA.employee = "e1" ∧
    (("e1" != "" && "e1" != "all") = true) ∧
    adminListFilter (some "e1") none none none none tsA = true ∧
    adminListFilter none none none none none { tsA with employee := "zz" } =
      adminListFilter none none none none none tsA :=
  ⟨by decide, by decide, by decide, by decide,
   (owner_scoping [] "e1" none none none none none).2.2.1 (Or.inl rfl) tsA "zz"⟩

/-- C7: when both bounds are supplied the list result is exactly the
otherwise-matching records whose date lies in the inclusive range
`[a, b]`; when either bound is missing, the date imposes no restriction. -/
theorem date_range_inclusive
    (store : List Timesheet) (uid : String) (status : Option String)
    (a b : Int) (sd ed : Option Int) (emp search : Option String) :
    (∀ u, u ∈ employeeList store uid status (some a) (some b) ↔
        u ∈ store ∧ (u.employee == uid && statusFilter status u) = true ∧
          a ≤ u.date ∧ u.date ≤ b)
    ∧ ((sd = none ∨ ed = none) → ∀ t, dateRangeFilter sd ed t = true)
    ∧ ((sd = none ∨ ed = none) → ∀ u, u ∈ employeeList store uid status sd ed ↔
        u ∈ store ∧ (u.employee == uid && statusFilter status u) = true)
    ∧ (∀ u, u ∈ adminList store emp status (some a) (some b) search ↔
        u ∈ store ∧ (employeeParamFilter emp u && statusFilter status u &&
          searchFilter search u) = true ∧ a ≤ u.date ∧ u.date ≤ b) := by
  have hnone : (sd = none ∨ ed = none) → ∀ t, dateRangeFilter sd ed t = true := by
    rintro (rfl | rfl) t
    · rfl
    · cases sd with
      | none => rfl
      | some x => rfl
  refine ⟨?_, hnone, ?_, ?_⟩
  · intro u
    rw [employeeList, mem_sortByDateDesc, List.mem_filter]
    simp only [employeeListFilter, dateRangeFilter, Bool.and_eq_true,
      decide_eq_true_eq, and_assoc]
  · intro h u
    rw [employeeList, mem_sortByDateDesc, List.mem_filter]
    simp only [employeeListFilter, Bool.and_eq_true]
    constructor
    · rintro ⟨h1, ⟨h2, h3⟩, h4⟩
      exact ⟨h1, h2, h3⟩
    · rintro ⟨h1, h2, h3⟩
      exact ⟨h1, ⟨h2, h3⟩, by simpa using hnone h u⟩
  · intro u
    rw [adminList, mem_sortByDateDesc, List.mem_filter]
    simp only [adminListFilter, dateRangeFilter, Bool.and_eq_true,
      decide_eq_true_eq, and_assoc]
    tauto

theorem date_range_inclusive_witness :
    (tsA ∈ employeeList [tsA, tsB] "e1" none (some 19785) (some 19785) ↔
      tsA ∈ [tsA, tsB] ∧ (tsA.employee == "e1" && statusFilter none tsA) = true ∧
        (19785 : Int) ≤ tsA.date ∧ tsA.date ≤ 19785) ∧
    tsA ∈ employeeList [tsA, tsB] "e1" none (some 19785) (some 19785) ∧
    tsB ∉ employeeList [tsA, tsB] "e1" none (some 19785) (some 19785) ∧
    dateRangeFilter (some 19785) none tsB = true :=
  ⟨(date_range_inclusive [tsA, tsB] "e1" none 19785 19785 none none none none).1 tsA,
   by
    refine ((date_range_inclusive [tsA, tsB] "e1" none 19785 19785
      none none none none).1 tsA).mpr ?_
    exact ⟨by decide, by decide, by decide, by decide⟩,
   by
    intro hmem
    have h := ((date_range_inclusive [tsA, tsB] "e1" none 19785 19785
      none none none none).1 tsB).mp hmem
    have hle : tsB.date ≤ 19785 := h.2.2.2
    rw [show tsB.date = 19786 from rfl] at hle
    omega,
   (date_range_inclusive [tsA, tsB] "e1" none 19785 19785 (some 19785) none
      none none).2.1 (Or.inr rfl) tsB⟩

/-- C5 counterexample: the employee-tier CSV export is a CSV export whose
header row is the 7-column list, not the claimed fixed 10-column set; and
in the reachable admin export the name cell stays the denormalized
`employeeName` ("Alice") even though the joined employee record is
available and carries a different name ("New Name"). -/
theorem csv_fixed_columns_cex :
    (employeeCsvExport [tsB] "e1").head? = some empCsvHeader ∧
    empCsvHeader ≠ adminCsvHeader ∧
    popEmployee [userB] tsA = some userB ∧ userB.name = "New Name" ∧
    (adminCsvRowAll [userB] tsA).head? = some "Alice" ∧
    ("Alice" : String) ≠ "New Name" := by decide

/-- C5 (amended): every CSV export yields one header row plus exactly one
data row per record of the result set; the reachable admin export uses the
fixed 10-column header, with email/employeeId/department taken from the
joined employee record when available and the empty string otherwise, and
the name column always the denormalized `employeeName`; the employee-tier
export uses the 7-column header. -/
theorem csv_export_shape
    (store : List Timesheet) (users : List User) (uid : String) :
    (adminCsvExportAll store users).length = store.length + 1
    ∧ (adminCsvExportAll store users).head? = some adminCsvHeader
    ∧ (employeeCsvExport store uid).length =
        (store.filter (fun t => t.employee == uid)).length + 1
    ∧ (employeeCsvExport store uid).head? = some empCsvHeader
    ∧ (∀ t u, popEmployee users t = some u →
        adminCsvRowAll users t =
          [t.employeeName, u.email, u.employeeId, u.department,
           isoDateString t.date, t.plannedWork, t.actualWork, t.remarks,
           t.status, t.adminComments])
    ∧ (∀ t, popEmployee users t = none →
        adminCsvRowAll users t =
          [t.employeeName, "", "", "", isoDateString t.date, t.plannedWork,
           t.actualWork, t.remarks, t.status, t.adminComments]) := by
  refine ⟨?_, rfl, ?_, rfl, ?_, ?_⟩
  · simp [adminCsvExportAll, length_sortByDateDesc]
  · simp [employeeCsvExport, employeeOwnedDocs, length_sortByDateDesc]
  · intro t u h
    simp [adminCsvRowAll, h]
  · intro t h
    simp [adminCsvRowAll, h]

theorem csv_export_shape_witness :
    (adminCsvExportAll [tsA, tsB] [userB]).length = [tsA, tsB].length + 1 ∧
    popEmployee [userB] tsB = some userB ∧
    adminCsvRowAll [userB] tsB =
      [tsB.employeeName, userB.email, userB.employeeId, userB.department,
       isoDateString tsB.date, tsB.plannedWork, tsB.actualWork, tsB.remarks,
       tsB.status, tsB.adminComments] :=
  ⟨(csv_export_shape [tsA, tsB] [userB] "e1").1,
   by decide,
   (csv_export_shape [tsA, tsB] [userB] "e1").2.2.2.2.1 tsB userB (by decide)⟩

/-- C9: at `GET /admin/timesheets/export/csv` only the first registered
handler is ever dispatched; it never reads the query string and exports all
timesheets unfiltered, so for a fixed store and credential the response —
in particular the CSV body — is identical whatever the query parameters,
and the two later registrations at the same path are unreachable. -/
theorem csv_dispatch_first_registration
    (env : Env) (hdr : Option String) (q q' : List (String × String)) :
    dispatch adminGetRoutes env (csvReq q hdr) =
      adminCsvAllHandler env (csvReq q hdr) []
    ∧ dispatch adminGetRoutes env (csvReq q hdr) =
      dispatch adminGetRoutes env (csvReq q' hdr)
    ∧ (∀ tok u, bearerToken hdr = some tok →
        jwtVerify env.tokens tok = some u → u.role = "admin" →
        dispatch adminGetRoutes env (csvReq q hdr) =
          { status := 200,
            body := csvRender (adminCsvExportAll env.store env.users) }) := by
  refine ⟨rfl, rfl, ?_⟩
  intro tok u h1 h2 h3
  have : dispatch adminGetRoutes env (csvReq q hdr) =
      adminAuth env (csvReq q hdr) (fun _ =>
        { status := 200,
          body := csvRender (adminCsvExportAll env.store env.users) }) := rfl
  rw [this]
  simp [adminAuth, csvReq, h1, h2, h3]

theorem csv_dispatch_witness :
    (dispatch adminGetRoutes env0
        (csvReq [("employee", "e1"), ("status", "accepted")]
          (some "Bearer tok1")) =
      dispatch adminGetRoutes env0 (csvReq [] (some "Bearer tok1"))) ∧
    (bearerToken (some "Bearer tok1") = some "tok1" ∧
      jwtVerify env0.tokens "tok1" = some adminU ∧ adminU.role = "admin") ∧
    dispatch adminGetRoutes env0
        (csvReq [("employee", "e1"), ("status", "accepted")]
          (some "Bearer tok1")) =
      { status := 200,
        body := csvRender (adminCsvExportAll env0.store env0.users) } :=
  ⟨(csv_dispatch_first_registration env0 (some "Bearer tok1")
      [("employee", "e1"), ("status", "accepted")] []).2.1,
   ⟨by decide, by decide, by decide⟩,
   (csv_dispatch_first_registration env0 (some "Bearer tok1")
      [("employee", "e1"), ("status", "accepted")] []).2.2 "tok1" adminU
     (by decide) (by decide) (by decide)⟩

/-- C8 counterexample: on the single-record PDF path a request carrying a
valid admin token only as the `token` query parameter (no `Authorization`
header) is NOT authenticated: dispatch reaches the first registration at
that path, whose `adminAuth` middleware answers 401, even though the token
is valid and the record exists. -/
theorem pdf_query_token_cex :
    jwtVerify env0.tokens "tok1" = some adminU ∧
    findById env0.store "t2" = some tsB ∧
    dispatch adminGetRoutes env0 (pdfReq "t2" [("token", "tok1")] none) =
      { status := 401, body := "No token, authorization denied" } := by
  decide

/-- C8 (amended): the single-record PDF path has a second registration whose
handler would authenticate a valid token passed only as the `token` query
parameter and answers 401 with no token at all, but it is shadowed by the
first registration (`adminAuth`) at the same path, so a dispatched request
without an `Authorization` header — valid query token or not — receives
401; every other modelled GET handler of both routers accepts the bearer
token only via the standard auth header. -/
theorem pdf_token_transport
    (env : Env) (id tok : String) (u : AuthUser) (t : Timesheet)
    (htok : tok ≠ "") (hv : jwtVerify env.tokens tok = some u)
    (ht : findById env.store id = some t) :
    dispatch adminGetRoutes env (pdfReq id [("token", tok)] none) =
      { status := 401, body := "No token, authorization denied" }
    ∧ pdfQueryTokenHandler env (pdfReq id [("token", tok)] none)
        [("id", id)] = { status := 200, body := pdfDetailsText t }
    ∧ pdfQueryTokenHandler env (pdfReq id [] none) [("id", id)] =
        { status := 401, body := "No token, authorization denied" }
    ∧ headerOnly employeesHandler ∧ headerOnly adminTimesheetsHandler
    ∧ headerOnly adminCsvAllHandler ∧ headerOnly dashboardHandler
    ∧ headerOnly downloadHandler ∧ headerOnly pdfAdminHandler
    ∧ headerOnly adminCsvFilteredHandler ∧ headerOnly exportCombinedHandler
    ∧ headerOnly adminCsvRangeHandler ∧ headerOnly employeeListHandler
    ∧ headerOnly employeeCsvHandler ∧ headerOnly employeePdfHandler
    ∧ headerOnly downloadPdfHandler := by
  have hbne : (tok != "") = true := bne_iff_ne.mpr htok
  refine ⟨?_, ?_, rfl, ?_, ?_, ?_, ?_, ?_, ?_, ?_, ?_, ?_, ?_, ?_, ?_, ?_⟩
  · simp [dispatch, adminGetRoutes, matchSegs, pdfReq, pdfAdminHandler,
      adminAuth, bearerToken]
  · simp [pdfQueryTokenHandler, pdfReq, queryParam, bearerToken, getParam,
      hbne, hv, ht]
  all_goals
    intro env' req ps h
    simp [employeesHandler, adminTimesheetsHandler, adminCsvAllHandler,
      dashboardHandler, downloadHandler, pdfAdminHandler,
      adminCsvFilteredHandler, exportCombinedHandler, adminCsvRangeHandler,
      employeeListHandler, employeeCsvHandler, employeePdfHandler,
      downloadPdfHandler, adminAuth, authMw, bearerToken, h]

theorem pdf_token_transport_witness :
    ("tok1" ≠ "" ∧ jwtVerify env0.tokens "tok1" = some adminU ∧
      findById env0.store "t2" = some tsB) ∧
    dispatch adminGetRoutes env0 (pdfReq "t2" [("token", "tok1")] none) =
      { status := 401, body := "No token, authorization denied" } ∧
    pdfQueryTokenHandler env0 (pdfReq "t2" [("token", "tok1")] none)
      [("id", "t2")] = { status := 200, body := pdfDetailsText tsB } :=
  ⟨⟨by decide, by decide, by decide⟩,
   (pdf_token_transport env0 "t2" "tok1" adminU tsB (by decide) (by decide)
      (by decide)).1,
   (pdf_token_transport env0 "t2" "tok1" adminU tsB (by decide) (by decide)
      (by decide)).2.1⟩
